import Mathlib

/-
Verification of the khan MongoDB mapping layer (crates `khan` and `khan-macros`).

The database boundary is modelled as an `Oracle` (one pure response function per
driver call) together with a request log: every runtime operation appends the
request it dispatches to the log and returns the oracle's response for it.
Session binding (`with_session!`) only selects between two driver call styles
that carry the same logical request, so it is not modelled.  BSON documents are
ordered key/value lists with `docInsert` mirroring `bson::Document::insert`
(replace in place on an existing key, append otherwise).

The schema compiler (`khan-macros`) is modelled by pure functions from the
parsed field/projection/index configurations to the literals and documents the
generated code contains; they are transcribed from `derive_entity.rs` and
`derive_fields.rs`.
-/

namespace Khan

/-- BSON values, as far as the claims need them. -/
inductive Bson where
  | int (n : Int)
  | str (s : String)
  | objectId (n : Nat)
  | boolean (b : Bool)
  | doc (entries : List (String × Bson))
  | arr (elems : List Bson)

/-- A BSON document: an ordered list of key/value pairs. -/
abbrev Document := List (String × Bson)

/-- Model of `bson::Document::insert`: if the key is present its value is
replaced in place, otherwise the pair is appended at the end. -/
def docInsert (d : Document) (k : String) (v : Bson) : Document :=
  match d with
  | [] => [(k, v)]
  | (k', v') :: rest => if k' = k then (k, v) :: rest else (k', v') :: docInsert rest k v

/-- Model of `mongodb::IndexModel`: an optional index name plus the keys
document (field name to direction, `1` ascending / `-1` descending). -/
structure IndexModel where
  name : Option String
  keys : List (String × Int)
deriving DecidableEq

/-- A request dispatched at the database-driver boundary. -/
inductive Request where
  | countDocuments (coll : String) (filter : Document)
  | insertOne (coll : String) (d : Document)
  | insertMany (coll : String) (ds : List Document)
  | updateOne (coll : String) (filter upd : Document)
  | updateMany (coll : String) (filter upd : Document)
  | deleteOne (coll : String) (filter : Document)
  | deleteMany (coll : String) (filter : Document)
  | find (coll : String) (filter : Document) (proj : Option Document)
      (skip : Option Nat) (limit : Option Int) (sort : Option Document)
  | findOne (coll : String) (filter : Document) (proj : Option Document)
  | findOneAndUpdate (coll : String) (filter upd : Document) (proj : Option Document)
  | createIndexes (coll : String) (indexes : List IndexModel)

/-- Whether a request only reads: it neither inserts, updates nor deletes
documents and creates no indexes. -/
def isRead : Request → Bool
  | .countDocuments _ _ => true
  | .find _ _ _ _ _ _ => true
  | .findOne _ _ _ => true
  | _ => false

/-- The pure response function of the database boundary, one field per driver
call the runtime issues.  Errors are numbered. -/
structure Oracle where
  countDocuments : String → Document → Except Nat Nat
  insertOne : String → Document → Except Nat Unit
  insertMany : String → List Document → Except Nat Unit
  updateOne : String → Document → Document → Except Nat Unit
  updateMany : String → Document → Document → Except Nat Unit
  deleteOne : String → Document → Except Nat Unit
  deleteMany : String → Document → Except Nat Unit
  find : String → Document → Option Document → Option Nat → Option Int →
      Option Document → Except Nat (List Document)
  findOne : String → Document → Option Document → Except Nat (Option Document)
  findOneAndUpdate : String → Document → Document → Option Document →
      Except Nat (Option Document)
  createIndexes : String → List IndexModel → Except Nat Unit

/-- Sort direction (`khan::Order`). -/
inductive Order where
  | Asc
  | Desc
deriving DecidableEq

/-- Two-state field wrapper (`khan::Field`): `Set` participates, `Omit` does
not.  `Default` in the source is `Omit`. -/
inductive Field (T : Type) where
  | Set (v : T)
  | Omit
deriving DecidableEq

/-- Comparison operators (`khan::FilterOperator`). -/
inductive FilterOperator (T : Type) where
  | Eq (v : T)
  | Ne (v : T)
  | Gt (v : T)
  | Gte (v : T)
  | Lt (v : T)
  | Lte (v : T)
  | In (vs : List T)
  | Nin (vs : List T)
deriving DecidableEq

/-- Model of `FilterOperator::to_document` (lib.rs lines 579-598): a single-key
document mapping the operator to the serialized operand.  `ser` stands for
`bson::to_bson`. -/
def FilterOperator.to_document {T : Type} (ser : T → Bson) : FilterOperator T → Document
  | .Eq v => [("$eq", ser v)]
  | .Ne v => [("$ne", ser v)]
  | .Gt v => [("$gt", ser v)]
  | .Gte v => [("$gte", ser v)]
  | .Lt v => [("$lt", ser v)]
  | .Lte v => [("$lte", ser v)]
  | .In vs => [("$in", Bson.arr (vs.map ser))]
  | .Nin vs => [("$nin", Bson.arr (vs.map ser))]

/-- The lock typestate wrapper (`khan::Lock`); its field is private in the
source and it is only built by the locking operations below. -/
structure Lock (T : Type) where
  mk :: val : T
deriving DecidableEq

/-- The `$set` wrapping `Entity::update` / `Entity::update_one` apply to the
update's emitted document: `doc! \x7b "$set": update.to_document() \x7d`. -/
def wrapSet (u : Document) : Document :=
  [("$set", Bson.doc u)]

/-- Model of `FilterById::to_document`: `doc! \x7b "_id": id \x7d`. -/
def by_id (idBson : Bson) : Document :=
  [("_id", idBson)]

/-- The update document `lock_by_id` / `find_one_and_lock` construct
(lib.rs lines 214 and 367): an `UntypedUpdate` whose document already carries
the `$set` operator around the reserved `_lock.seed` field.  The fresh
`ObjectId::new()` is modelled by the `seed` parameter. -/
def lockSeedDocument (seed : Nat) : Document :=
  [("$set", Bson.doc [("_lock", Bson.doc [("seed", Bson.objectId seed)])])]

namespace Entity

/-- `Entity::count` (lib.rs lines 90-101): one `count_documents` driver call. -/
def count (coll : String) (filter : Document) (o : Oracle) (log : List Request) :
    List Request × Except Nat Nat :=
  (log ++ [Request.countDocuments coll filter], o.countDocuments coll filter)

/-- `Entity::exists` (lib.rs lines 103-110): `count` then compare with zero.
Named `existsB` because `exists` is a Lean keyword. -/
def existsB (coll : String) (filter : Document) (o : Oracle) (log : List Request) :
    List Request × Except Nat Bool :=
  match count coll filter o log with
  | (log', Except.ok c) => (log', Except.ok (decide (c > 0)))
  | (log', Except.error e) => (log', Except.error e)

/-- `Entity::insert` (lib.rs lines 112-122): one `insert_one` driver call with
the serialized entity. -/
def insert (coll : String) (selfDoc : Document) (o : Oracle) (log : List Request) :
    List Request × Except Nat Unit :=
  (log ++ [Request.insertOne coll selfDoc], o.insertOne coll selfDoc)

/-- `Entity::insert_locked` (lib.rs lines 124-131): `insert`, then wrap the
entity in `Lock` (the `?` propagates a driver error before the wrap). -/
def insert_locked {E : Type} (toDoc : E → Document) (coll : String) (self : E)
    (o : Oracle) (log : List Request) : List Request × Except Nat (Lock E) :=
  match insert coll (toDoc self) o log with
  | (log', Except.ok _) => (log', Except.ok (Lock.mk self))
  | (log', Except.error e) => (log', Except.error e)

/-- `Entity::insert_many` (lib.rs lines 133-143). -/
def insert_many {E : Type} (toDoc : E → Document) (coll : String) (entities : List E)
    (o : Oracle) (log : List Request) : List Request × Except Nat Unit :=
  (log ++ [Request.insertMany coll (entities.map toDoc)],
    o.insertMany coll (entities.map toDoc))

/-- `Entity::insert_many_locked` (lib.rs lines 145-155): `insert_many`, then
wrap every entity in `Lock`. -/
def insert_many_locked {E : Type} (toDoc : E → Document) (coll : String)
    (entities : List E) (o : Oracle) (log : List Request) :
    List Request × Except Nat (List (Lock E)) :=
  match insert_many toDoc coll entities o log with
  | (log', Except.ok _) => (log', Except.ok (entities.map Lock.mk))
  | (log', Except.error e) => (log', Except.error e)

/-- `Entity::update` (lib.rs lines 157-175): `update_many` with the filter's
document and the update's document wrapped under `$set`. -/
def update (coll : String) (filterDoc updDoc : Document) (o : Oracle)
    (log : List Request) : List Request × Except Nat Unit :=
  (log ++ [Request.updateMany coll filterDoc (wrapSet updDoc)],
    o.updateMany coll filterDoc (wrapSet updDoc))

/-- `Entity::update_one` (lib.rs lines 177-195): `update_one` with the filter's
document and the update's document wrapped under `$set`. -/
def update_one (coll : String) (filterDoc updDoc : Document) (o : Oracle)
    (log : List Request) : List Request × Except Nat Unit :=
  (log ++ [Request.updateOne coll filterDoc (wrapSet updDoc)],
    o.updateOne coll filterDoc (wrapSet updDoc))

/-- `Entity::update_by_id_locked` (lib.rs lines 197-208): `update_one` against
`by_id(id)`, then wrap the id in `Lock`. -/
def update_by_id_locked (coll : String) (idBson : Bson) (updDoc : Document)
    (o : Oracle) (log : List Request) : List Request × Except Nat (Lock Bson) :=
  match update_one coll (by_id idBson) updDoc o log with
  | (log', Except.ok _) => (log', Except.ok (Lock.mk idBson))
  | (log', Except.error e) => (log', Except.error e)

/-- `Entity::lock_by_id` (lib.rs lines 210-216): `update_by_id_locked` with the
already-`$set`-wrapped `lockSeedDocument` as the untyped update. -/
def lock_by_id (coll : String) (idBson : Bson) (seed : Nat) (o : Oracle)
    (log : List Request) : List Request × Except Nat (Lock Bson) :=
  update_by_id_locked coll idBson (lockSeedDocument seed) o log

end Entity

/-- BTreeMap-style ordered insertion used to model `BTreeMap<E::Fields, Order>`:
entries are kept sorted by the key's rank (its `Ord`); inserting an existing
key replaces the value and keeps the key.  `rank` stands for the key type's
`Ord` instance. -/
def btreeInsert {F : Type} (rank : F → Nat) :
    List (F × Order) → F → Order → List (F × Order)
  | [], k, v => [(k, v)]
  | (k', v') :: rest, k, v =>
    if rank k < rank k' then (k, v) :: (k', v') :: rest
    else if rank k = rank k' then (k', v) :: rest
    else (k', v') :: btreeInsert rank rest k v

/-- Builds the `BTreeMap` entry list from a sequence of insertions, in order. -/
def fromInsertions {F : Type} (rank : F → Nat) (pairs : List (F × Order)) :
    List (F × Order) :=
  pairs.foldl (fun m kv => btreeInsert rank m kv.1 kv.2) []

/-- Model of the sort-document construction in `find_with_opts` (lib.rs lines
303-316): map each entry of the `BTreeMap`, in its iteration order, to the
rendered field name paired with `1` for `Asc` and `-1` for `Desc`.  `render`
stands for `E::Fields`'s `Display`. -/
def sortDocument {F : Type} (render : F → String) (m : List (F × Order)) : Document :=
  m.map (fun kv => (render kv.1,
    match kv.2 with
    | Order.Asc => Bson.int 1
    | Order.Desc => Bson.int (-1)))

namespace Projection

/-- `Projection::projection_document` (lib.rs lines 249-276), the pure value
the process-wide cache memoizes: `FIELDS = none` gives no document; otherwise
every listed field other than the literal `"id"` maps to `1`, and if `"id"`
was not among the listed fields, `"_id"` is inserted with value `-1`. -/
def projection_document (fields? : Option (List String)) : Option Document :=
  fields?.map (fun fields =>
    let step := fields.foldl
      (fun (acc : Bool × Document) field =>
        if field = "id" then (true, acc.2)
        else (acc.1, docInsert acc.2 field (Bson.int 1)))
      (false, [])
    if step.1 then step.2 else docInsert step.2 "_id" (Bson.int (-1)))

/-- `Projection::find_with_opts` (lib.rs lines 278-334): one `find` driver call
carrying the filter, the projection document, skip, limit, and the sort
document built from the `BTreeMap`'s entries. -/
def find_with_opts {F : Type} (coll : String) (fields? : Option (List String))
    (render : F → String) (filterDoc : Document) (skip : Option Nat)
    (limit : Option Int) (sort : Option (List (F × Order))) (o : Oracle)
    (log : List Request) : List Request × Except Nat (List Document) :=
  (log ++ [Request.find coll filterDoc (projection_document fields?) skip limit
      (sort.map (sortDocument render))],
    o.find coll filterDoc (projection_document fields?) skip limit
      (sort.map (sortDocument render)))

/-- `Projection::find` (lib.rs lines 336-338): `find_with_opts` with no skip,
no limit and no sort. -/
def find {F : Type} (coll : String) (fields? : Option (List String))
    (render : F → String) (filterDoc : Document) (o : Oracle) (log : List Request) :
    List Request × Except Nat (List Document) :=
  find_with_opts coll fields? render filterDoc none none
    (none : Option (List (F × Order))) o log

/-- `Projection::find_one` (lib.rs lines 340-358): one `find_one` driver call
with the filter and the projection document. -/
def find_one (coll : String) (fields? : Option (List String)) (filterDoc : Document)
    (o : Oracle) (log : List Request) : List Request × Except Nat (Option Document) :=
  (log ++ [Request.findOne coll filterDoc (projection_document fields?)],
    o.findOne coll filterDoc (projection_document fields?))

/-- `Projection::find_one_and_update` (lib.rs lines 371-391): one
`find_one_and_update` driver call; the update's document is passed through
unchanged (no `$set` wrapping on this path). -/
def find_one_and_update (coll : String) (fields? : Option (List String))
    (filterDoc updDoc : Document) (o : Oracle) (log : List Request) :
    List Request × Except Nat (Option Document) :=
  (log ++ [Request.findOneAndUpdate coll filterDoc updDoc (projection_document fields?)],
    o.findOneAndUpdate coll filterDoc updDoc (projection_document fields?))

/-- `Projection::find_one_and_update_locked` (lib.rs lines 393-404):
`find_one_and_update`, then wrap the fetched projection (when any) in `Lock`. -/
def find_one_and_update_locked (coll : String) (fields? : Option (List String))
    (filterDoc updDoc : Document) (o : Oracle) (log : List Request) :
    List Request × Except Nat (Option (Lock Document)) :=
  match find_one_and_update coll fields? filterDoc updDoc o log with
  | (log', Except.ok entity) => (log', Except.ok (entity.map Lock.mk))
  | (log', Except.error e) => (log', Except.error e)

/-- `Projection::find_one_and_lock` (lib.rs lines 360-369):
`find_one_and_update_locked` with the `lockSeedDocument` untyped update. -/
def find_one_and_lock (coll : String) (fields? : Option (List String))
    (filterDoc : Document) (seed : Nat) (o : Oracle) (log : List Request) :
    List Request × Except Nat (Option (Lock Document)) :=
  find_one_and_update_locked coll fields? filterDoc (lockSeedDocument seed) o log

end Projection

namespace ProjectionWithId

/-- `ProjectionWithId::patch` (lib.rs lines 410-428): `Entity::update_one`
against `by_id(self.id())` with the update's document (re-wrapped by
`update_one` under `$set`); the `?` propagates a driver error before the
in-memory write-back, leaving `self` untouched; on success `update.apply(self)`
runs.  `apply` returns the mutated value together with its `Result`, modelling
`fn apply(self, &mut P) -> Result<()>`; the middle component of the result is
the state of `&mut self` after the call. -/
def patch {P : Type} (coll : String) (getId : P → Bson) (updDoc : Document)
    (apply : P → P × Except Nat Unit) (self : P) (o : Oracle) (log : List Request) :
    List Request × P × Except Nat Unit :=
  match Entity.update_one coll (by_id (getId self)) updDoc o log with
  | (log', Except.ok _) =>
    let a := apply self
    (log', a.1, a.2)
  | (log', Except.error e) => (log', self, Except.error e)

/-- `ProjectionWithId::patch_locked` (lib.rs lines 430-441): `patch`, then wrap
`self` (as left by `patch`) in `Lock`; the `?` propagates an error first. -/
def patch_locked {P : Type} (coll : String) (getId : P → Bson) (updDoc : Document)
    (apply : P → P × Except Nat Unit) (self : P) (o : Oracle) (log : List Request) :
    List Request × Except Nat (Lock P) :=
  match patch coll getId updDoc apply self o log with
  | (log', p', Except.ok _) => (log', Except.ok (Lock.mk p'))
  | (log', _, Except.error e) => (log', Except.error e)

end ProjectionWithId

/-- A field of a record declaration as the derive macros see it: the field's
identifier and the optional `#[serde(rename = "...")]` override. -/
structure FieldConfig where
  name : String
  rename : Option String
deriving DecidableEq

/-- Wire-name literal computed by `derive_entity.rs` (lines 214-228,
`field_lits_by_ident`): the rename when present, otherwise the stringification
of `ident` — which at that point in `build` is the binding for the ENTITY's
ident, not the field's. -/
def fieldLit (entityIdent : String) (fc : FieldConfig) : String :=
  match fc.rename with
  | some r => r
  | none => entityIdent

/-- Wire-name literal computed by `derive_fields.rs` (lines 29-41): the rename
when present, otherwise the field's own identifier. -/
def derivedFieldsLit (fc : FieldConfig) : String :=
  match fc.rename with
  | some r => r
  | none => fc.name

/-- The `FIELDS` constant emitted for a projection (`derive_entity.rs` lines
240 and 280): the wire-name literal of each referenced field, looked up in
`field_lits_by_ident`. -/
def projectionFIELDS (entityIdent : String) (fields : List FieldConfig)
    (projected : List String) : List String :=
  projected.filterMap (fun n =>
    (fields.find? (fun fc => fc.name = n)).map (fieldLit entityIdent))

/-- Serialization of a generated `TypedFilter` (`derive_entity.rs` lines
334-350): starting from the empty document, every field in the `Set` state
inserts its wire-name literal mapped to the operator's document; `Omit` fields
contribute nothing.  A filter value is the list of (wire-name literal, field
state) pairs in the generated struct's field order. -/
def TypedFilter.to_document {T : Type} (ser : T → Bson)
    (fields : List (String × Field (FilterOperator T))) : Document :=
  fields.foldl
    (fun document f =>
      match f.2 with
      | Field.Set val => docInsert document f.1 (Bson.doc (FilterOperator.to_document ser val))
      | Field.Omit => document)
    []

/-- Serialization of a generated `TypedUpdate` (`derive_entity.rs` lines
359-375): every `Set` field inserts its wire-name literal mapped to the
serialized value; `Omit` fields contribute nothing. -/
def TypedUpdate.to_document {T : Type} (ser : T → Bson)
    (fields : List (String × Field T)) : Document :=
  fields.foldl
    (fun document f =>
      match f.2 with
      | Field.Set val => docInsert document f.1 (ser val)
      | Field.Omit => document)
    []

/-- The generated `UpdateApply` impl (`derive_entity.rs` lines 404-423): for
each field of the target shape, a `Set` entry of the update overwrites the
field, an `Omit` entry leaves it; the impl always returns `Ok(())`.  The
target value is the assignment of its fields' identifiers to values. -/
def updateApply {T : Type} (upd : String → Field T) (p : List (String × T)) :
    List (String × T) :=
  p.map (fun fv =>
    match upd fv.1 with
    | Field.Set v => (fv.1, v)
    | Field.Omit => fv)

/-- Index direction parsed by `derive_entity.rs` (lines 114-123). -/
inductive IndexDirection where
  | Pos
  | Neg
deriving DecidableEq

/-- Parsing of one index direction literal: `1` or `-1`, anything else is a
compile error. -/
def parseIndexDirection (n : Int) : Option IndexDirection :=
  if n = 1 then some IndexDirection.Pos
  else if n = -1 then some IndexDirection.Neg
  else none

/-- Parsing of an index name (`derive_entity.rs` line 104): the reserved `"_"`
means an anonymous index. -/
def parseIndexName (n : String) : Option String :=
  if n = "_" then none else some n

/-- A validated index declaration (`derive_entity.rs` `IndexConfig`). -/
structure IndexConfig where
  name : Option String
  keys : List (String × IndexDirection)
deriving DecidableEq

/-- Parsing and validation of one `#[entity(indexes(...))]` attribute
(`derive_entity.rs` lines 100-135): every key must be a known field and every
direction `1` or `-1`; the name `"_"` becomes anonymous. -/
def parseIndexConfig (fieldNames : List String) (name : String)
    (keys : List (String × Int)) : Option IndexConfig :=
  match keys.mapM (fun kd =>
      if fieldNames.contains kd.1 then
        (parseIndexDirection kd.2).map (fun d => (kd.1, d))
      else none) with
  | some ks => some (IndexConfig.mk (parseIndexName name) ks)
  | none => none

/-- The body of the `indexes()` method the derive emits in the generated
`Entity` impl (`derive_entity.rs` lines 312-314): it is the literal `&[]`;
the validated index configurations reaching `build` are not used. -/
def generatedIndexes (_configs : List IndexConfig) : List IndexModel :=
  []

/-- One registered entity's metadata (`meta.rs` `EntityMetadata`). -/
structure EntityMetadata where
  collection_name : String
  indexes : List IndexModel

/-- `enforce_indexes` (meta.rs lines 92-102): for every registered entity, one
`create_indexes` driver call with that entity's declared index models; a
driver error stops the loop and propagates. -/
def enforce_indexes (metas : List EntityMetadata) (o : Oracle) (log : List Request) :
    List Request × Except Nat Unit :=
  match metas with
  | [] => (log, Except.ok ())
  | m :: rest =>
    match o.createIndexes m.collection_name m.indexes with
    | Except.ok _ =>
      enforce_indexes rest o (log ++ [Request.createIndexes m.collection_name m.indexes])
    | Except.error e =>
      (log ++ [Request.createIndexes m.collection_name m.indexes], Except.error e)

/-- An oracle whose every response is a successful default, used to evaluate
operations on concrete inputs. -/
def oracleOk : Oracle where
  countDocuments := fun _ _ => Except.ok 0
  insertOne := fun _ _ => Except.ok ()
  insertMany := fun _ _ => Except.ok ()
  updateOne := fun _ _ _ => Except.ok ()
  updateMany := fun _ _ _ => Except.ok ()
  deleteOne := fun _ _ => Except.ok ()
  deleteMany := fun _ _ => Except.ok ()
  find := fun _ _ _ _ _ _ => Except.ok []
  findOne := fun _ _ _ => Except.ok none
  findOneAndUpdate := fun _ _ _ _ => Except.ok none
  createIndexes := fun _ _ => Except.ok ()

/-- Helper for the sort-order development: the head of a `btreeInsert` result
is either the inserted key or the previous head's key. -/
theorem btreeInsert_head {F : Type} (rank : F → Nat) (k : F) (v : Order) :
    ∀ (m : List (F × Order)) (y : F × Order), (btreeInsert rank m k v).head? = some y →
      y.1 = k ∨ (∃ z, m.head? = some z ∧ y.1 = z.1) := by
  intro m y h
  match m with
  | [] =>
    simp [btreeInsert] at h
    subst h
    exact Or.inl rfl
  | (k', v') :: rest =>
    by_cases h1 : rank k < rank k'
    · simp [btreeInsert, h1] at h
      subst h
      exact Or.inl rfl
    · by_cases h2 : rank k = rank k'
      · simp [btreeInsert, h1, h2] at h
        subst h
        exact Or.inr ⟨(k', v'), rfl, rfl⟩
      · simp [btreeInsert, h1, h2] at h
        subst h
        exact Or.inr ⟨(k', v'), rfl, rfl⟩

/-- Helper: `btreeInsert` preserves strict sortedness by key rank. -/
theorem btreeInsert_chain {F : Type} (rank : F → Nat) (k : F) (v : Order) :
    ∀ (m : List (F × Order)),
      List.Chain' (fun a b => rank a.1 < rank b.1) m →
      List.Chain' (fun a b => rank a.1 < rank b.1) (btreeInsert rank m k v) := by
  intro m
  induction m with
  | nil => intro _; simp [btreeInsert]
  | cons hd tl ih =>
    obtain ⟨k', v'⟩ := hd
    intro h
    rw [List.chain'_cons'] at h
    obtain ⟨hhead, htl⟩ := h
    by_cases h1 : rank k < rank k'
    · show List.Chain' _ (if rank k < rank k' then _ else _)
      rw [if_pos h1]
      rw [List.chain'_cons']
      refine ⟨?_, ?_⟩
      · intro y hy
        simp at hy
        subst hy
        exact h1
      · rw [List.chain'_cons']
        exact ⟨hhead, htl⟩
    · by_cases h2 : rank k = rank k'
      · show List.Chain' _ (if rank k < rank k' then _ else _)
        rw [if_neg h1, if_pos h2]
        rw [List.chain'_cons']
        exact ⟨hhead, htl⟩
      · show List.Chain' _ (if rank k < rank k' then _ else _)
        rw [if_neg h1, if_neg h2]
        rw [List.chain'_cons']
        refine ⟨?_, ih htl⟩
        · intro y hy
          rcases btreeInsert_head rank k v tl y hy with hk | ⟨z, hz, hyz⟩
          · have hlt : rank k' < rank k := by omega
            rw [hk]
            exact hlt
          · rw [hyz]
            exact hhead z hz

/-- Helper: a `BTreeMap` built by any sequence of insertions is strictly
sorted by key rank. -/
theorem fromInsertions_chain {F : Type} (rank : F → Nat) (pairs : List (F × Order)) :
    List.Chain' (fun a b => rank a.1 < rank b.1) (fromInsertions rank pairs) := by
  suffices h : ∀ (init : List (F × Order)),
      List.Chain' (fun a b => rank a.1 < rank b.1) init →
      List.Chain' (fun a b => rank a.1 < rank b.1)
        (pairs.foldl (fun m kv => btreeInsert rank m kv.1 kv.2) init) by
    exact h [] (by simp)
  induction pairs with
  | nil => intro init h; exact h
  | cons hd tl ih =>
    intro init h
    exact ih (btreeInsert rank init hd.1 hd.2) (btreeInsert_chain rank hd.1 hd.2 init h)

/-- Claim C1: the claim states that a field without an explicit wire-name
override uses the field's own name in every generated artifact.  Evaluating
the code: `derive_entity.rs`'s wire-name fallback (`fieldLit`) stringifies the
entity's ident, so the field `username` of entity `User` gets wire name
`"User"`, while `derive_fields.rs`'s fallback (`derivedFieldsLit`) yields the
field's own name `"username"`; the two differ.  This exhibits the slip behind
the code_bug verdict. -/
theorem c1_default_wire_name_is_entity_ident :
    fieldLit "User" (FieldConfig.mk "username" none) = "User" ∧
    derivedFieldsLit (FieldConfig.mk "username" none) = "username" ∧
    ("User" : String) ≠ "username" :=
  ⟨rfl, rfl, by decide⟩

/-- Claim C2: `patch` issues the `update_one` write for the one document
matching the held identity (filter `by_id(self.id())`, update wrapped under
`$set`) and applies the in-memory write-back only when that write returned
success; when the driver returns an error, the in-memory value is returned
unmodified and the error is propagated. -/
theorem c2_patch_writes_before_apply {P : Type} (coll : String) (getId : P → Bson)
    (updDoc : Document) (apply : P → P × Except Nat Unit) (self : P) (o : Oracle)
    (log : List Request) :
    ProjectionWithId.patch coll getId updDoc apply self o log =
      (log ++ [Request.updateOne coll (by_id (getId self)) (wrapSet updDoc)],
       match o.updateOne coll (by_id (getId self)) (wrapSet updDoc) with
       | Except.ok _ => ((apply self).1, (apply self).2)
       | Except.error e => (self, Except.error e)) := by
  unfold ProjectionWithId.patch Entity.update_one
  cases o.updateOne coll (by_id (getId self)) (wrapSet updDoc) <;> rfl

/-- Claim C3: the claim states the read-projection document maps every listed
field except the identity field to an inclusion marker and carries an identity
exclusion entry exactly when identity was not listed.  Evaluating the code at
the projection `Profile(id, email)`: the generated `FIELDS` holds the wire
names `["_id", "email"]`, but `projection_document` tests its entries against
the literal `"id"`, so identity is not detected and the resulting document is
`[("_id", -1), ("email", 1)]` — the exclusion-style entry is present although
identity was requested.  (A full record read, `FIELDS = none`, does use no
projection document.) -/
theorem c3_projection_document_requested_identity_still_excluded :
    projectionFIELDS "User"
      [FieldConfig.mk "id" (some "_id"), FieldConfig.mk "email" (some "email"),
       FieldConfig.mk "username" none] ["id", "email"] = ["_id", "email"] ∧
    Projection.projection_document (some ["_id", "email"]) =
      some [("_id", Bson.int (-1)), ("email", Bson.int 1)] ∧
    Projection.projection_document none = none :=
  ⟨rfl, rfl, rfl⟩

/-- Claim C4: the claim states that `lock_by_id` sends an update whose effect
is to set only the reserved field `_lock`.  Evaluating the code: `lock_by_id`
hands `update_one` a document that already carries the `$set` operator, and
`update_one` wraps it under `$set` again, so the dispatched update document is
the double-wrapped one, which differs from the single-wrapped document whose
effect would be to set `_lock`.  (`find_one_and_lock` goes through
`find_one_and_update`, which does not re-wrap, and so dispatches the intended
single-wrapped document.) -/
theorem c4_lock_by_id_dispatches_double_wrapped_set :
    (Entity.lock_by_id "user" (Bson.objectId 1) 2 oracleOk []).1 =
      [Request.updateOne "user" [("_id", Bson.objectId 1)]
        [("$set", Bson.doc [("$set", Bson.doc [("_lock", Bson.doc
          [("seed", Bson.objectId 2)])])])]] ∧
    (Projection.find_one_and_lock "user" none [("_id", Bson.objectId 1)] 2 oracleOk []).1 =
      [Request.findOneAndUpdate "user" [("_id", Bson.objectId 1)]
        [("$set", Bson.doc [("_lock", Bson.doc [("seed", Bson.objectId 2)])])]
        none] ∧
    ([("$set", Bson.doc [("$set", Bson.doc [("_lock", Bson.doc
        [("seed", Bson.objectId 2)])])])] : Document) ≠
      [("$set", Bson.doc [("_lock", Bson.doc [("seed", Bson.objectId 2)])])] :=
  ⟨rfl, rfl, by simp⟩

/-- Claim C5: the claim states every update-construction path wraps the typed
update's emitted document under exactly one `$set`.  Evaluating the code at a
typed update with `name` set: its emitted document is `[("name", "Kit")]`, and
`find_one_and_update` dispatches exactly that document — zero `$set` wraps,
not one. -/
theorem c5_find_one_and_update_dispatches_unwrapped_update :
    TypedUpdate.to_document Bson.str [("name", Field.Set "Kit")] =
      [("name", Bson.str "Kit")] ∧
    (Projection.find_one_and_update "user" none [("_id", Bson.objectId 1)]
        [("name", Bson.str "Kit")] oracleOk []).1 =
      [Request.findOneAndUpdate "user" [("_id", Bson.objectId 1)]
        [("name", Bson.str "Kit")] none] ∧
    ([("name", Bson.str "Kit")] : Document) ≠ wrapSet [("name", Bson.str "Kit")] :=
  ⟨rfl, rfl, by simp [wrapSet]⟩

/-- Claim C6 counterexample: with keys `false` (rank 0, rendered `"a"`) and
`true` (rank 1, rendered `"b"`) inserted in the order `true` then `false`,
`find_with_opts` sends the sort document with keys `["a", "b"]`, while
rendering the mapping in insertion order would give `["b", "a"]`; the sort
document's key order therefore does not follow the insertion order, refuting
the claim as stated. -/
theorem c6_sort_insertion_order_counterexample :
    (Projection.find_with_opts "user" none (fun b => if b then "b" else "a")
        [] none none
        (some (fromInsertions (fun b => if b then 1 else 0)
          [(true, Order.Asc), (false, Order.Asc)]))
        oracleOk []).1 =
      [Request.find "user" [] none none none
        (some [("a", Bson.int 1), ("b", Bson.int 1)])] ∧
    sortDocument (fun b => if b then "b" else "a")
      [(true, Order.Asc), (false, Order.Asc)] =
      [("b", Bson.int 1), ("a", Bson.int 1)] ∧
    ([("a", Bson.int 1), ("b", Bson.int 1)] : Document) ≠
      [("b", Bson.int 1), ("a", Bson.int 1)] :=
  ⟨rfl, rfl, by simp⟩

/-- Claim C6 (amended): the sort document `find_with_opts` sends lists the
mapping's keys in the `BTreeMap`'s iteration order — strictly ascending by the
key type's order — regardless of insertion order: the dispatched sort document
is `sortDocument` of the key-sorted entry list, that entry list is strictly
sorted by key rank, and the document's keys are exactly the rendered keys of
that list in that order. -/
theorem c6_sort_keys_in_key_order {F : Type} (rank : F → Nat) (render : F → String)
    (pairs : List (F × Order)) (coll : String) (filterDoc : Document) (o : Oracle)
    (log : List Request) :
    (Projection.find_with_opts coll none render filterDoc none none
        (some (fromInsertions rank pairs)) o log).1 =
      log ++ [Request.find coll filterDoc none none none
        (some (sortDocument render (fromInsertions rank pairs)))] ∧
    List.Chain' (fun a b => rank a.1 < rank b.1) (fromInsertions rank pairs) ∧
    (sortDocument render (fromInsertions rank pairs)).map Prod.fst =
      (fromInsertions rank pairs).map (fun kv => render kv.1) := by
  refine ⟨rfl, fromInsertions_chain rank pairs, ?_⟩
  simp [sortDocument]

/-- Claim C7: the claim states `enforce_indexes` requests exactly the declared
index descriptors; for the anonymous declaration `_(keys(email = 1))`, exactly
one ascending index on `email`.  Evaluating the code: the declaration parses
and validates to an anonymous ascending index config, but the generated
`indexes()` body is the literal empty slice, so `enforce_indexes` issues
`createIndexes` with no index models — not the declared one. -/
theorem c7_declared_indexes_dropped :
    parseIndexConfig ["id", "email", "username"] "_" [("email", 1)] =
      some (IndexConfig.mk none [("email", IndexDirection.Pos)]) ∧
    generatedIndexes [IndexConfig.mk none [("email", IndexDirection.Pos)]] = [] ∧
    (enforce_indexes [EntityMetadata.mk "user"
        (generatedIndexes [IndexConfig.mk none [("email", IndexDirection.Pos)]])]
        oracleOk []).1 =
      [Request.createIndexes "user" []] ∧
    ([] : List IndexModel) ≠ [IndexModel.mk none [("email", 1)]] :=
  ⟨rfl, rfl, rfl, by simp⟩

/-- Claim C8: the claim states a TypedFilter serializes to exactly one key per
`Set` field, at the field's wire name.  Evaluating the code on entity `User`
with the two un-renamed fields `email` and `username` both `Set`: both
wire-name literals default to `"User"` (the C1 slip), and the second insert
replaces the first, so the serialized filter has a single key instead of one
key per `Set` field.  (An all-`Omit` filter does serialize to the empty
document.) -/
theorem c8_wire_name_collision_merges_set_fields :
    TypedFilter.to_document Bson.str
      [(fieldLit "User" (FieldConfig.mk "email" none),
        Field.Set (FilterOperator.Eq "a")),
       (fieldLit "User" (FieldConfig.mk "username" none),
        Field.Set (FilterOperator.Eq "b"))] =
      [("User", Bson.doc [("$eq", Bson.str "b")])] ∧
    TypedFilter.to_document Bson.str
      [("_id", (Field.Omit : Field (FilterOperator String))),
       ("email", Field.Omit), ("username", Field.Omit)] = [] ∧
    TypedUpdate.to_document Bson.str
      [("_id", (Field.Omit : Field String)),
       ("email", Field.Omit), ("username", Field.Omit)] = [] :=
  ⟨rfl, rfl, rfl⟩

/-- Claim C9: within the embedding, `Lock` values are produced only by the
seven locking operations, and each of them yields a `Lock` exactly when its
database write returned success: on a boundary error the error is propagated
and no `Lock` is returned. -/
theorem c9_lock_only_after_successful_write {E P : Type} (toDoc : E → Document)
    (coll : String) (self : E) (entities : List E) (idBson : Bson)
    (updDoc filterDoc : Document) (fields? : Option (List String)) (seed : Nat)
    (getId : P → Bson) (apply : P → P × Except Nat Unit) (p : P) (o : Oracle)
    (log : List Request) :
    (Entity.insert_locked toDoc coll self o log).2 =
      (o.insertOne coll (toDoc self)).map (fun _ => Lock.mk self) ∧
    (Entity.insert_many_locked toDoc coll entities o log).2 =
      (o.insertMany coll (entities.map toDoc)).map (fun _ => entities.map Lock.mk) ∧
    (Entity.update_by_id_locked coll idBson updDoc o log).2 =
      (o.updateOne coll (by_id idBson) (wrapSet updDoc)).map (fun _ => Lock.mk idBson) ∧
    (Entity.lock_by_id coll idBson seed o log).2 =
      (o.updateOne coll (by_id idBson) (wrapSet (lockSeedDocument seed))).map
        (fun _ => Lock.mk idBson) ∧
    (Projection.find_one_and_update_locked coll fields? filterDoc updDoc o log).2 =
      (o.findOneAndUpdate coll filterDoc updDoc
        (Projection.projection_document fields?)).map (fun e => e.map Lock.mk) ∧
    (Projection.find_one_and_lock coll fields? filterDoc seed o log).2 =
      (o.findOneAndUpdate coll filterDoc (lockSeedDocument seed)
        (Projection.projection_document fields?)).map (fun e => e.map Lock.mk) ∧
    (ProjectionWithId.patch_locked coll getId updDoc apply p o log).2 =
      (match o.updateOne coll (by_id (getId p)) (wrapSet updDoc) with
       | Except.error e => Except.error e
       | Except.ok _ => ((apply p).2).map (fun _ => Lock.mk (apply p).1)) := by
  refine ⟨?_, ?_, ?_, ?_, ?_, ?_, ?_⟩
  · unfold Entity.insert_locked Entity.insert
    cases o.insertOne coll (toDoc self) <;> rfl
  · unfold Entity.insert_many_locked Entity.insert_many
    cases o.insertMany coll (entities.map toDoc) <;> rfl
  · unfold Entity.update_by_id_locked Entity.update_one
    cases o.updateOne coll (by_id idBson) (wrapSet updDoc) <;> rfl
  · unfold Entity.lock_by_id Entity.update_by_id_locked Entity.update_one
    cases o.updateOne coll (by_id idBson) (wrapSet (lockSeedDocument seed)) <;> rfl
  · unfold Projection.find_one_and_update_locked Projection.find_one_and_update
    cases o.findOneAndUpdate coll filterDoc updDoc
      (Projection.projection_document fields?) <;> rfl
  · unfold Projection.find_one_and_lock Projection.find_one_and_update_locked
      Projection.find_one_and_update
    cases o.findOneAndUpdate coll filterDoc (lockSeedDocument seed)
      (Projection.projection_document fields?) <;> rfl
  · unfold ProjectionWithId.patch_locked ProjectionWithId.patch Entity.update_one
    cases o.updateOne coll (by_id (getId p)) (wrapSet updDoc) with
    | error e => rfl
    | ok u =>
      rcases hap : apply p with ⟨p', r⟩
      simp only [hap]
      cases r <;> rfl

/-- Claim C10: `count`, `exists`, `find_with_opts`, `find` and `find_one` each
dispatch exactly one request, and that request is a read (no insert, update,
delete or index creation); of the find-named projection operations,
`find_one_and_update` and `find_one_and_lock` dispatch a (single) write
request.  The operations are pure functions of the oracle: no in-memory
argument is modified. -/
theorem c10_read_ops_issue_only_reads {F : Type} (coll : String) (filterDoc : Document)
    (fields? : Option (List String)) (render : F → String) (skip : Option Nat)
    (limit : Option Int) (sort : Option (List (F × Order))) (updDoc : Document)
    (seed : Nat) (o : Oracle) (log : List Request) :
    ((Entity.count coll filterDoc o log).1 =
        log ++ [Request.countDocuments coll filterDoc] ∧
      isRead (Request.countDocuments coll filterDoc) = true) ∧
    (Entity.existsB coll filterDoc o log).1 =
      log ++ [Request.countDocuments coll filterDoc] ∧
    ((Projection.find_with_opts coll fields? render filterDoc skip limit sort o log).1 =
        log ++ [Request.find coll filterDoc (Projection.projection_document fields?)
          skip limit (sort.map (sortDocument render))] ∧
      isRead (Request.find coll filterDoc (Projection.projection_document fields?)
        skip limit (sort.map (sortDocument render))) = true) ∧
    (Projection.find (F := F) coll fields? render filterDoc o log).1 =
      log ++ [Request.find coll filterDoc (Projection.projection_document fields?)
        none none none] ∧
    ((Projection.find_one coll fields? filterDoc o log).1 =
        log ++ [Request.findOne coll filterDoc (Projection.projection_document fields?)] ∧
      isRead (Request.findOne coll filterDoc
        (Projection.projection_document fields?)) = true) ∧
    ((Projection.find_one_and_update coll fields? filterDoc updDoc o log).1 =
        log ++ [Request.findOneAndUpdate coll filterDoc updDoc
          (Projection.projection_document fields?)] ∧
      isRead (Request.findOneAndUpdate coll filterDoc updDoc
        (Projection.projection_document fields?)) = false) ∧
    (Projection.find_one_and_lock coll fields? filterDoc seed o log).1 =
      log ++ [Request.findOneAndUpdate coll filterDoc (lockSeedDocument seed)
        (Projection.projection_document fields?)] := by
  refine ⟨⟨rfl, rfl⟩, ?_, ⟨rfl, rfl⟩, rfl, ⟨rfl, rfl⟩, ⟨rfl, rfl⟩, ?_⟩
  · unfold Entity.existsB Entity.count
    cases o.countDocuments coll filterDoc <;> rfl
  · unfold Projection.find_one_and_lock Projection.find_one_and_update_locked
      Projection.find_one_and_update
    cases o.findOneAndUpdate coll filterDoc (lockSeedDocument seed)
      (Projection.projection_document fields?) <;> rfl

end Khan
